import Mathlib

/-!
Shallow embedding of `src/modules/recording/JibriQueue.js` (a client of a
jibri waiting queue over XMPP) and proofs about its join/leave lifecycle,
inbound IQ handling, acknowledgment generation and event emission.
-/

namespace JibriQueue

/-- A child XML element of the `jibri-queue` payload, as consumed by the
`for (const child of Array.from(jibriQueue.children))` loop: its tag name and
its decoded text content (`Strophe.getText(child)`). -/
structure Child where
  tagName : String
  text : String
deriving DecidableEq, Repr

/-- The `jibri-queue` payload element of an inbound IQ: its `action` and
`value` attributes (`getAttribute` returns null when absent, modelled as
`none`) and its list of child elements in document order. -/
structure Payload where
  action : Option String
  value : Option String
  children : List Child
deriving DecidableEq, Repr

/-- An inbound IQ stanza as seen by `_onIQ`: the `from` attribute, the `id`
attribute, and the list of `jibri-queue` elements found by
`$(iq).find(..)`. -/
structure IQ where
  fromJid : String
  id : String
  jibriQueueNodes : List Payload
deriving DecidableEq, Repr

/-- The `_metrics` object: both fields start absent (`this._metrics = ..` is
the empty object) and hold string values once written. -/
structure Metrics where
  position : Option String
  estimatedTimeLeft : Option String
deriving DecidableEq, Repr

/-- The mutable instance state of a `JibriQueue` relevant to the protocol
logic: the configured queue JID and room JID, the `_hasJoined` flag and the
`_metrics` snapshot. -/
structure QueueState where
  jibriQueueJID : String
  roomJID : String
  hasJoined : Bool
  metrics : Metrics
deriving DecidableEq, Repr

/-- State right after the constructor ran: `_metrics` empty and
`_hasJoined = false`. -/
def initialState (jibriQueueJID roomJID : String) : QueueState :=
  { jibriQueueJID := jibriQueueJID, roomJID := roomJID, hasJoined := false,
    metrics := { position := none, estimatedTimeLeft := none } }

/-- The stanza error attached to the acknowledgment on an unrecognized
action: `error type=cancel` wrapping a condition element with its
namespace. -/
structure StanzaError where
  errorType : String
  condition : String
  conditionXmlns : String
deriving DecidableEq, Repr

/-- An acknowledgment IQ built by `_onIQ`: starts as
`type=result, to=from, id=iq.id` and may be turned into an error result. -/
structure Ack where
  type : String
  toJid : String
  id : String
  error : Option StanzaError
deriving DecidableEq, Repr

/-- An outbound request stanza produced by `join()` or `leave()`: target,
stanza type and the `jibri-queue` child attributes. -/
structure Request where
  toJid : String
  type : String
  xmlns : String
  action : String
  room : Option String
deriving DecidableEq, Repr

/-- The two application events the instance can emit. -/
inductive Event where
  | metrics (snapshot : Metrics)
  | token (value : Option String)
deriving DecidableEq, Repr

/-- Everything observable from one invocation of `_onIQ`: the updated
instance state, the events emitted, the acknowledgments sent over the
connection, and the handler return value (`none` models the bare `return;`,
`some true` the final `return true`). -/
structure HandlerResult where
  state : QueueState
  events : List Event
  acks : List Ack
  handled : Option Bool
deriving DecidableEq, Repr

/-- The body of the `for child of children` loop in the `info` branch of
`_onIQ`, one iteration: the accumulator carries the metrics object and the
`updated` flag. A `position` or `time` child overwrites the corresponding
field and sets `updated` only when its decoded text differs from the stored
value (the JS `!==` against a possibly-undefined field). -/
def processChild (acc : Metrics × Bool) (child : Child) : Metrics × Bool :=
  if child.tagName = "position" then
    if some child.text ≠ acc.1.position then
      ({ acc.1 with position := some child.text }, true)
    else acc
  else if child.tagName = "time" then
    if some child.text ≠ acc.1.estimatedTimeLeft then
      ({ acc.1 with estimatedTimeLeft := some child.text }, true)
    else acc
  else acc

/-- The acknowledgment skeleton built before the `switch`:
`$iq(type: result, to: from, id: iq.id)`. -/
def mkAck (iq : IQ) : Ack :=
  { type := "result", toJid := iq.fromJid, id := iq.id, error := none }

/-- The error detail the default branch attaches:
`error type=cancel / service-unavailable xmlns=urn:ietf:params:xml:ns:xmpp-stanzas`. -/
def serviceUnavailableError : StanzaError :=
  { errorType := "cancel", condition := "service-unavailable",
    conditionXmlns := "urn:ietf:params:xml:ns:xmpp-stanzas" }

/-- The `switch (action)` of `_onIQ` together with the final
`this._connection.send(ack); return true;`, given the first `jibri-queue`
node of a validated inbound IQ. -/
def processPayload (s : QueueState) (iq : IQ) (jibriQueue : Payload) : HandlerResult :=
  let ack := mkAck iq
  if jibriQueue.action = some "info" then
    let r := jibriQueue.children.foldl processChild (s.metrics, false)
    { state := { s with metrics := r.1 },
      events := if r.2 then [Event.metrics r.1] else [],
      acks := [ack],
      handled := some true }
  else if jibriQueue.action = some "token" then
    { state := s, events := [Event.token jibriQueue.value], acks := [ack],
      handled := some true }
  else
    { state := s, events := [],
      acks := [{ ack with type := "error", error := some serviceUnavailableError }],
      handled := some true }

/-- Result of the two silent `return;` paths of `_onIQ`: no state change, no
event, no acknowledgment, handler returns undefined. -/
def silentResult (s : QueueState) : HandlerResult :=
  { state := s, events := [], acks := [], handled := none }

/-- The `_onIQ` handler. The source guards with
`if (!this._hasJoined) return;` and then
`if (from !== this._jibriQueueJID || jibriQueueNodes.length === 0) return;`
before taking `jibriQueueNodes[0]`; the combined disjunctive guard is split
into the empty-list match and the sender check, both yielding the same
silent result. -/
def onIQ (s : QueueState) (iq : IQ) : HandlerResult :=
  if s.hasJoined = false then silentResult s
  else
    match iq.jibriQueueNodes with
    | [] => silentResult s
    | jibriQueue :: _ =>
      if iq.fromJid ≠ s.jibriQueueJID then silentResult s
      else processPayload s iq jibriQueue

/-- Settlement state of a JS promise. -/
inductive PromiseState where
  | pending
  | resolved
  | rejected (error : String)
deriving DecidableEq, Repr

/-- A settled promise ignores further settlement attempts. -/
def settle (p : PromiseState) (t : PromiseState) : PromiseState :=
  match p with
  | PromiseState.pending => t
  | _ => p

/-- What a call to `join()` or `leave()` does synchronously: either it
returns `Promise.reject(new Error(..))` without touching the connection, or
it sends one request and returns a pending promise. -/
inductive CallResult where
  | rejectedImmediately (message : String)
  | requestSent (request : Request)
deriving DecidableEq, Repr

/-- Requests that reach the connection for a given call outcome. -/
def requestsSent : CallResult → List Request
  | CallResult.rejectedImmediately _ => []
  | CallResult.requestSent r => [r]

/-- The request stanza `join()` builds: `to` the queue JID, `type=set`, child
`jibri-queue` with the namespace, `action=join` and `room`. -/
def joinRequest (s : QueueState) : Request :=
  { toJid := s.jibriQueueJID, type := "set",
    xmlns := "http://jitsi.org/protocol/jibri-queue", action := "join",
    room := some s.roomJID }

/-- The request stanza `leave()` builds: same but `action=leave` and no
`room` attribute. -/
def leaveRequest (s : QueueState) : Request :=
  { toJid := s.jibriQueueJID, type := "set",
    xmlns := "http://jitsi.org/protocol/jibri-queue", action := "leave",
    room := none }

/-- Synchronous part of `join()`: if `_hasJoined` it returns an immediately
rejected promise and sends nothing, otherwise it sends the join request. -/
def join (s : QueueState) : CallResult :=
  if s.hasJoined then
    CallResult.rejectedImmediately "The queue is already joined!"
  else
    CallResult.requestSent (joinRequest s)

/-- Synchronous part of `leave()`: if not `_hasJoined` it returns an
immediately rejected promise and sends nothing, otherwise it sends the leave
request. -/
def leave (s : QueueState) : CallResult :=
  if s.hasJoined = false then
    CallResult.rejectedImmediately "There\x27s no queue to leave!"
  else
    CallResult.requestSent (leaveRequest s)

/-- The success callback `join()` passes to `sendIQ`: it sets
`this._hasJoined = true` and logs; it does not settle the returned
promise (the `resolve` binding is never invoked in the source). -/
def joinOnSuccess (s : QueueState) (p : PromiseState) : QueueState × PromiseState :=
  ({ s with hasJoined := true }, p)

/-- The error callback `join()` passes to `sendIQ`: `reject(error)`. -/
def joinOnError (s : QueueState) (p : PromiseState) (error : String) :
    QueueState × PromiseState :=
  (s, settle p (PromiseState.rejected error))

/-- The success callback `leave()` passes to `sendIQ`: it only logs; it
neither resets `_hasJoined` nor settles the returned promise. -/
def leaveOnSuccess (s : QueueState) (p : PromiseState) : QueueState × PromiseState :=
  (s, p)

/-- The error callback `leave()` passes to `sendIQ`: `reject(error)`. -/
def leaveOnError (s : QueueState) (p : PromiseState) (error : String) :
    QueueState × PromiseState :=
  (s, settle p (PromiseState.rejected error))

/-- Whole-instance state for the event-level transition system: the queue
state, whether the inbound handler registered by the constructor is still
installed (`dispose()` removes it), whether a join/leave request is in
flight, and the settlement state of the latest join/leave promise. -/
structure Machine where
  q : QueueState
  handlerActive : Bool
  joinOutstanding : Bool
  leaveOutstanding : Bool
  joinPromise : PromiseState
  leavePromise : PromiseState
deriving DecidableEq, Repr

/-- Machine state right after the constructor: handler installed, nothing in
flight. The promise fields are unobservable until a call creates them. -/
def initialMachine (jibriQueueJID roomJID : String) : Machine :=
  { q := initialState jibriQueueJID roomJID, handlerActive := true,
    joinOutstanding := false, leaveOutstanding := false,
    joinPromise := PromiseState.pending, leavePromise := PromiseState.pending }

/-- The events that can happen to an instance: API calls, transport
callbacks for the in-flight requests, and inbound IQ delivery. -/
inductive Step where
  | joinCall
  | joinAckSuccess
  | joinAckError (error : String)
  | leaveCall
  | leaveAckSuccess
  | leaveAckError (error : String)
  | inbound (iq : IQ)
  | disposeCall
deriving DecidableEq, Repr

/-- One transition of the instance. Transport callbacks only fire while the
matching request is outstanding (`sendIQ` invokes exactly one of them exactly
once); inbound IQs reach `_onIQ` only while the handler is installed. -/
def step (m : Machine) : Step → Machine
  | Step.joinCall =>
    match join m.q with
    | CallResult.rejectedImmediately e => { m with joinPromise := PromiseState.rejected e }
    | CallResult.requestSent _ =>
      { m with joinOutstanding := true, joinPromise := PromiseState.pending }
  | Step.joinAckSuccess =>
    if m.joinOutstanding then
      let r := joinOnSuccess m.q m.joinPromise
      { m with q := r.1, joinPromise := r.2, joinOutstanding := false }
    else m
  | Step.joinAckError e =>
    if m.joinOutstanding then
      let r := joinOnError m.q m.joinPromise e
      { m with q := r.1, joinPromise := r.2, joinOutstanding := false }
    else m
  | Step.leaveCall =>
    match leave m.q with
    | CallResult.rejectedImmediately e => { m with leavePromise := PromiseState.rejected e }
    | CallResult.requestSent _ =>
      { m with leaveOutstanding := true, leavePromise := PromiseState.pending }
  | Step.leaveAckSuccess =>
    if m.leaveOutstanding then
      let r := leaveOnSuccess m.q m.leavePromise
      { m with q := r.1, leavePromise := r.2, leaveOutstanding := false }
    else m
  | Step.leaveAckError e =>
    if m.leaveOutstanding then
      let r := leaveOnError m.q m.leavePromise e
      { m with q := r.1, leavePromise := r.2, leaveOutstanding := false }
    else m
  | Step.inbound iq =>
    if m.handlerActive then { m with q := (onIQ m.q iq).state } else m
  | Step.disposeCall => { m with handlerActive := false }

/-- Run a list of steps from a machine state. -/
def runTrace (m : Machine) (es : List Step) : Machine :=
  es.foldl step m

/-- Decoded text of the last child with the given tag, in document order. -/
def lastText (tag : String) : List Child → Option String
  | [] => none
  | c :: cs =>
    match lastText tag cs with
    | some t => some t
    | none => if c.tagName = tag then some c.text else none

/-- Specification-side change predicate for an `info` push: at least one
`position` or `time` child carries a decoded value that differs from the
value stored at the moment that child is processed. -/
def infoChanged (m : Metrics) : List Child → Bool
  | [] => false
  | c :: cs =>
    if c.tagName = "position" then
      if some c.text ≠ m.position then true else infoChanged m cs
    else if c.tagName = "time" then
      if some c.text ≠ m.estimatedTimeLeft then true else infoChanged m cs
    else infoChanged m cs

/-- First option if present, otherwise the stored value. -/
def orElseStored : Option String → Option String → Option String
  | some t, _ => some t
  | none, stored => stored

/-- A joined client, used for concrete instantiations. -/
def sampleJoined : QueueState :=
  { jibriQueueJID := "jibriqueue@auth.example.com",
    roomJID := "room@conference.example.com", hasJoined := true,
    metrics := { position := none, estimatedTimeLeft := none } }

/-- Payload of a valid `info` push with one `position` child. -/
def infoPayloadSample : Payload :=
  { action := some "info", value := none,
    children := [{ tagName := "position", text := "5" }] }

/-- A valid `info` push with one `position` child. -/
def infoIQsample : IQ :=
  { fromJid := "jibriqueue@auth.example.com", id := "iq-2",
    jibriQueueNodes := [infoPayloadSample] }

/-- A valid push with an unrecognized action. -/
def unknownIQsample : IQ :=
  { fromJid := "jibriqueue@auth.example.com", id := "iq-3",
    jibriQueueNodes := [{ action := some "stop", value := none, children := [] }] }

/-- A valid `token` push. -/
def tokenIQsample : IQ :=
  { fromJid := "jibriqueue@auth.example.com", id := "iq-4",
    jibriQueueNodes := [{ action := some "token", value := some "abc", children := [] }] }

/-- Payload of a valid `info` push with repeated `position` and `time`
children. -/
def multiPayloadSample : Payload :=
  { action := some "info", value := none,
    children := [{ tagName := "position", text := "3" },
                 { tagName := "position", text := "7" },
                 { tagName := "time", text := "40" },
                 { tagName := "time", text := "25" }] }

/-- A valid `info` push with repeated `position` and `time` children. -/
def multiIQsample : IQ :=
  { fromJid := "jibriqueue@auth.example.com", id := "iq-5",
    jibriQueueNodes := [multiPayloadSample] }

/-- An `info` push whose single field equals the stored state below. -/
def dupIQsample : IQ :=
  { fromJid := "jibriqueue@auth.example.com", id := "iq-6",
    jibriQueueNodes := [infoPayloadSample] }

/-- A joined client already holding position 5. -/
def joinedWithPos5 : QueueState :=
  { jibriQueueJID := "jibriqueue@auth.example.com",
    roomJID := "room@conference.example.com", hasJoined := true,
    metrics := { position := some "5", estimatedTimeLeft := none } }

/-- Payload of an `info` push whose children all carry unrelated tags. -/
def otherPayloadSample : Payload :=
  { action := some "info", value := none,
    children := [{ tagName := "note", text := "x" }] }

/-- An `info` push whose children all carry unrelated tags. -/
def otherIQsample : IQ :=
  { fromJid := "jibriqueue@auth.example.com", id := "iq-7",
    jibriQueueNodes := [otherPayloadSample] }

/-- `processPayload` never touches the `_hasJoined` flag. -/
theorem processPayload_hasJoined (s : QueueState) (iq : IQ) (p : Payload) :
    (processPayload s iq p).state.hasJoined = s.hasJoined := by
  simp only [processPayload]
  split_ifs <;> rfl

/-- `_onIQ` never touches the `_hasJoined` flag. -/
theorem onIQ_hasJoined (s : QueueState) (iq : IQ) :
    (onIQ s iq).state.hasJoined = s.hasJoined := by
  unfold onIQ
  split
  · rfl
  · split
    · rfl
    · split
      · rfl
      · exact processPayload_hasJoined ..

/-- On a validated inbound IQ processed while joined, `_onIQ` is the
`switch` on the first payload node. -/
theorem onIQ_valid (s : QueueState) (iq : IQ) (p : Payload) (rest : List Payload)
    (hj : s.hasJoined = true) (hf : iq.fromJid = s.jibriQueueJID)
    (hn : iq.jibriQueueNodes = p :: rest) :
    onIQ s iq = processPayload s iq p := by
  unfold onIQ
  rw [hn, hj, hf]
  simp

/-- Reduction of the `info` branch. -/
theorem processPayload_info (s : QueueState) (iq : IQ) (p : Payload)
    (ha : p.action = some "info") :
    processPayload s iq p =
      { state := { s with metrics := (p.children.foldl processChild (s.metrics, false)).1 },
        events := if (p.children.foldl processChild (s.metrics, false)).2 then
            [Event.metrics (p.children.foldl processChild (s.metrics, false)).1] else [],
        acks := [mkAck iq],
        handled := some true } := by
  simp only [processPayload, ha]
  rfl

/-- Reduction of the `token` branch. -/
theorem processPayload_token (s : QueueState) (iq : IQ) (p : Payload)
    (ha : p.action = some "token") :
    processPayload s iq p =
      { state := s, events := [Event.token p.value], acks := [mkAck iq],
        handled := some true } := by
  simp only [processPayload, ha]
  rfl

/-- Reduction of the default branch. -/
theorem processPayload_default (s : QueueState) (iq : IQ) (p : Payload)
    (hi : p.action ≠ some "info") (ht : p.action ≠ some "token") :
    processPayload s iq p =
      { state := s, events := [],
        acks := [{ type := "error", toJid := iq.fromJid, id := iq.id,
                   error := some serviceUnavailableError }],
        handled := some true } := by
  simp only [processPayload]
  rw [if_neg hi, if_neg ht]
  rfl

/-- After the loop, the `position` field holds the text of the last
`position` child, or the previous value when there is none. -/
theorem foldl_processChild_position (cs : List Child) :
    ∀ acc : Metrics × Bool,
      (cs.foldl processChild acc).1.position =
        orElseStored (lastText "position" cs) acc.1.position := by
  induction cs with
  | nil => intro acc; rfl
  | cons c cs ih =>
    intro acc
    rw [List.foldl_cons, ih]
    by_cases hp : c.tagName = "position"
    · have h1 : (processChild acc c).1.position = some c.text := by
        simp only [processChild]
        rw [if_pos hp]
        split_ifs with h
        · rfl
        · push_neg at h
          exact h.symm
      rw [h1]
      cases h : lastText "position" cs <;> simp [lastText, hp, h, orElseStored]
    · have h1 : (processChild acc c).1.position = acc.1.position := by
        simp only [processChild]
        rw [if_neg hp]
        split_ifs <;> rfl
      rw [h1]
      cases h : lastText "position" cs <;> simp [lastText, hp, h, orElseStored]

/-- After the loop, the `estimatedTimeLeft` field holds the text of the last
`time` child, or the previous value when there is none. -/
theorem foldl_processChild_time (cs : List Child) :
    ∀ acc : Metrics × Bool,
      (cs.foldl processChild acc).1.estimatedTimeLeft =
        orElseStored (lastText "time" cs) acc.1.estimatedTimeLeft := by
  induction cs with
  | nil => intro acc; rfl
  | cons c cs ih =>
    intro acc
    rw [List.foldl_cons, ih]
    by_cases ht : c.tagName = "time"
    · have hp : ¬ c.tagName = "position" := by rw [ht]; decide
      have h1 : (processChild acc c).1.estimatedTimeLeft = some c.text := by
        simp only [processChild]
        rw [if_neg hp, if_pos ht]
        split_ifs with h
        · rfl
        · push_neg at h
          exact h.symm
      rw [h1]
      cases h : lastText "time" cs <;> simp [lastText, ht, h, orElseStored]
    · have h1 : (processChild acc c).1.estimatedTimeLeft = acc.1.estimatedTimeLeft := by
        simp only [processChild]
        split_ifs <;> rfl
      rw [h1]
      cases h : lastText "time" cs <;> simp [lastText, ht, h, orElseStored]

/-- The loop's `updated` flag is the change predicate (relative to the flag
the loop started with). -/
theorem foldl_processChild_updated (cs : List Child) :
    ∀ acc : Metrics × Bool,
      (cs.foldl processChild acc).2 = (acc.2 || infoChanged acc.1 cs) := by
  induction cs with
  | nil => intro acc; simp [infoChanged]
  | cons c cs ih =>
    intro acc
    rw [List.foldl_cons, ih]
    simp only [processChild, infoChanged]
    split_ifs <;> simp_all

/-- When the change predicate is false the loop leaves the metrics object
untouched. -/
theorem foldl_processChild_unchanged (cs : List Child) :
    ∀ acc : Metrics × Bool, infoChanged acc.1 cs = false →
      (cs.foldl processChild acc).1 = acc.1 := by
  induction cs with
  | nil => intro acc _; rfl
  | cons c cs ih =>
    intro acc h
    rw [List.foldl_cons]
    simp only [infoChanged] at h
    by_cases h1 : c.tagName = "position"
    · rw [if_pos h1] at h
      by_cases h2 : some c.text ≠ acc.1.position
      · rw [if_pos h2] at h
        exact absurd h (by simp)
      · rw [if_neg h2] at h
        have hpc : processChild acc c = acc := by
          simp only [processChild]
          rw [if_pos h1, if_neg h2]
        rw [hpc]
        exact ih acc h
    · rw [if_neg h1] at h
      by_cases h3 : c.tagName = "time"
      · rw [if_pos h3] at h
        by_cases h4 : some c.text ≠ acc.1.estimatedTimeLeft
        · rw [if_pos h4] at h
          exact absurd h (by simp)
        · rw [if_neg h4] at h
          have hpc : processChild acc c = acc := by
            simp only [processChild]
            rw [if_neg h1, if_pos h3, if_neg h4]
          rw [hpc]
          exact ih acc h
      · rw [if_neg h3] at h
        have hpc : processChild acc c = acc := by
          simp only [processChild]
          rw [if_neg h1, if_neg h3]
        rw [hpc]
        exact ih acc h

/-- When every inbound field equals the stored one, the change predicate is
false. -/
theorem infoChanged_false_of_fields_equal (cs : List Child) :
    ∀ m : Metrics,
      (∀ c ∈ cs, c.tagName = "position" → m.position = some c.text) →
      (∀ c ∈ cs, c.tagName = "time" → m.estimatedTimeLeft = some c.text) →
      infoChanged m cs = false := by
  induction cs with
  | nil => intro m _ _; rfl
  | cons c cs ih =>
    intro m hp ht
    simp only [infoChanged]
    by_cases h1 : c.tagName = "position"
    · rw [if_pos h1]
      have he : m.position = some c.text := hp c (List.mem_cons_self ..) h1
      rw [if_neg (by simp [he])]
      exact ih m (fun d hd => hp d (List.mem_cons_of_mem _ hd))
        (fun d hd => ht d (List.mem_cons_of_mem _ hd))
    · rw [if_neg h1]
      by_cases h3 : c.tagName = "time"
      · rw [if_pos h3]
        have he : m.estimatedTimeLeft = some c.text := ht c (List.mem_cons_self ..) h3
        rw [if_neg (by simp [he])]
        exact ih m (fun d hd => hp d (List.mem_cons_of_mem _ hd))
          (fun d hd => ht d (List.mem_cons_of_mem _ hd))
      · rw [if_neg h3]
        exact ih m (fun d hd => hp d (List.mem_cons_of_mem _ hd))
          (fun d hd => ht d (List.mem_cons_of_mem _ hd))

/-- Children with unrelated tags leave the loop accumulator untouched. -/
theorem foldl_processChild_skip (cs : List Child) :
    ∀ acc : Metrics × Bool,
      (∀ c ∈ cs, c.tagName ≠ "position" ∧ c.tagName ≠ "time") →
      cs.foldl processChild acc = acc := by
  induction cs with
  | nil => intro acc _; rfl
  | cons c cs ih =>
    intro acc h
    have hc := h c (List.mem_cons_self ..)
    rw [List.foldl_cons]
    have hpc : processChild acc c = acc := by
      simp only [processChild]
      rw [if_neg hc.1, if_neg hc.2]
    rw [hpc]
    exact ih acc (fun d hd => h d (List.mem_cons_of_mem _ hd))

/-- Every step other than the successful join acknowledgment preserves the
`_hasJoined` flag. -/
theorem step_preserves_hasJoined (m : Machine) :
    ∀ e : Step, e ≠ Step.joinAckSuccess → (step m e).q.hasJoined = m.q.hasJoined := by
  intro e hne
  cases e with
  | joinAckSuccess => exact absurd rfl hne
  | joinCall =>
    simp only [step]
    cases join m.q <;> rfl
  | joinAckError er =>
    simp only [step]
    split <;> rfl
  | leaveCall =>
    simp only [step]
    cases leave m.q <;> rfl
  | leaveAckSuccess =>
    simp only [step]
    split <;> rfl
  | leaveAckError er =>
    simp only [step]
    split <;> rfl
  | inbound iq =>
    simp only [step]
    split
    · exact onIQ_hasJoined ..
    · rfl
  | disposeCall => rfl

/-- C1: the spec claims the futures returned by join() and leave() resolve
when the remote acknowledges success. In the source the success callbacks
only set the flag respectively log — the `resolve` binding of either
promise executor is never invoked — so at the failing input (a fresh
client whose join request, and later a joined client whose leave request,
is acknowledged successfully) the promise stays pending; only the error
callbacks settle (reject) the promises. -/
theorem c1_success_ack_never_resolves :
    (joinOnSuccess (initialState "jibriqueue@auth.example.com" "room@conference.example.com")
        PromiseState.pending).2 = PromiseState.pending ∧
    (joinOnSuccess (initialState "jibriqueue@auth.example.com" "room@conference.example.com")
        PromiseState.pending).1.hasJoined = true ∧
    (leaveOnSuccess sampleJoined PromiseState.pending).2 = PromiseState.pending ∧
    (joinOnError (initialState "jibriqueue@auth.example.com" "room@conference.example.com")
        PromiseState.pending "timeout").2 = PromiseState.rejected "timeout" ∧
    (leaveOnError sampleJoined PromiseState.pending "timeout").2 =
      PromiseState.rejected "timeout" :=
  ⟨rfl, rfl, rfl, rfl, rfl⟩

/-- C2 counterexample: after the concrete trace join(), successful join
acknowledgment, leave(), successful leave acknowledgment, dispose(), the
membership flag is still `joined`, refuting the claim that after leave()
succeeds or dispose() runs the flag is no longer `joined`. -/
theorem c2_flag_survives_leave_and_dispose :
    (runTrace (initialMachine "jibriqueue@auth.example.com" "room@conference.example.com")
      [Step.joinCall, Step.joinAckSuccess, Step.leaveCall, Step.leaveAckSuccess,
       Step.disposeCall]).q.hasJoined = true := by
  rfl

/-- C2 amended: the membership flag becomes `joined` only via a successful
join acknowledgment and is never reset afterwards: every step of the
instance — including a successful leave acknowledgment and dispose() —
preserves a `joined` flag. -/
theorem c2_joined_is_absorbing (m : Machine) (e : Step) (h : m.q.hasJoined = true) :
    (step m e).q.hasJoined = true := by
  cases e with
  | joinCall =>
    simp only [step]
    cases join m.q <;> exact h
  | joinAckSuccess =>
    simp only [step]
    split
    · rfl
    · exact h
  | joinAckError er =>
    simp only [step]
    split
    · exact h
    · exact h
  | leaveCall =>
    simp only [step]
    cases leave m.q <;> exact h
  | leaveAckSuccess =>
    simp only [step]
    split
    · exact h
    · exact h
  | leaveAckError er =>
    simp only [step]
    split
    · exact h
    · exact h
  | inbound iq =>
    simp only [step]
    split
    · show (onIQ m.q iq).state.hasJoined = true
      rw [onIQ_hasJoined]
      exact h
    · exact h
  | disposeCall => exact h

/-- C2 amended witness: a joined machine stays joined across dispose(). -/
theorem c2_joined_is_absorbing_witness :
    (step { q := sampleJoined, handlerActive := true, joinOutstanding := false,
            leaveOutstanding := false, joinPromise := PromiseState.pending,
            leavePromise := PromiseState.pending } Step.disposeCall).q.hasJoined = true :=
  c2_joined_is_absorbing
    { q := sampleJoined, handlerActive := true, joinOutstanding := false,
      leaveOutstanding := false, joinPromise := PromiseState.pending,
      leavePromise := PromiseState.pending } Step.disposeCall rfl

/-- C3 counterexample: an inbound IQ processed while joined whose full
`from` string carries a resource suffix (the bare JID matches the handler
registration filter, the strict string comparison in `_onIQ` fails) takes
the validation silent path: zero acknowledgments are sent and the message
is not reported handled — a second acknowledgment-free path besides the
not-joined one, refuting that step 1 is the only such path. -/
theorem c3_mismatch_sender_silent :
    (onIQ sampleJoined
      { fromJid := "jibriqueue@auth.example.com/focus", id := "iq-1",
        jibriQueueNodes := [infoPayloadSample] }).acks = [] ∧
    (onIQ sampleJoined
      { fromJid := "jibriqueue@auth.example.com/focus", id := "iq-1",
        jibriQueueNodes := [infoPayloadSample] }).handled = none :=
  ⟨rfl, rfl⟩

/-- C3 amended: besides the not-joined silent path there is exactly one
more acknowledgment-free path, the validation failure (strict sender
mismatch or missing payload element); every message processed while joined
that passes validation results in exactly one acknowledgment and is
reported handled (handler returns true), and on either silent path nothing
is sent and nothing is reported. -/
theorem c3_ack_exactly_when_validated (s : QueueState) (iq : IQ) :
    (s.hasJoined = true → iq.fromJid = s.jibriQueueJID → iq.jibriQueueNodes ≠ [] →
      (onIQ s iq).acks.length = 1 ∧ (onIQ s iq).handled = some true) ∧
    (s.hasJoined = false ∨ iq.fromJid ≠ s.jibriQueueJID ∨ iq.jibriQueueNodes = [] →
      (onIQ s iq).acks = [] ∧ (onIQ s iq).handled = none) := by
  constructor
  · intro hj hf hn
    cases hq : iq.jibriQueueNodes with
    | nil => exact absurd hq hn
    | cons p rest =>
      rw [onIQ_valid s iq p rest hj hf hq]
      simp only [processPayload]
      split_ifs <;> exact ⟨rfl, rfl⟩
  · intro h
    unfold onIQ
    rcases h with h | h | h
    · rw [h]
      exact ⟨rfl, rfl⟩
    · by_cases hj : s.hasJoined = false
      · simp [hj, silentResult]
      · cases hq : iq.jibriQueueNodes with
        | nil => simp [hj, hq, silentResult]
        | cons p rest => simp [hj, hq, h, silentResult]
    · by_cases hj : s.hasJoined = false
      · simp [hj, silentResult]
      · simp [hj, h, silentResult]

/-- C3 amended witness: a validated info push while joined yields exactly
one acknowledgment and a handled report. -/
theorem c3_ack_exactly_when_validated_witness :
    (onIQ sampleJoined infoIQsample).acks.length = 1 ∧
    (onIQ sampleJoined infoIQsample).handled = some true :=
  (c3_ack_exactly_when_validated sampleJoined infoIQsample).1 rfl rfl (by decide)

/-- C4: for an `info` push processed while joined, when no inbound field
differs from the stored value at its processing point the metrics snapshot
is left exactly as it was; a `metrics` event fires iff at least one field
changed; and when every inbound field equals the stored state, the push
emits zero events and an identical consecutive push again emits zero
events. -/
theorem c4_metrics_change_detection (s : QueueState) (iq : IQ) (p : Payload)
    (rest : List Payload) (hj : s.hasJoined = true)
    (hf : iq.fromJid = s.jibriQueueJID) (hn : iq.jibriQueueNodes = p :: rest)
    (ha : p.action = some "info") :
    (infoChanged s.metrics p.children = false →
      (onIQ s iq).state.metrics = s.metrics) ∧
    ((onIQ s iq).events ≠ [] ↔ infoChanged s.metrics p.children = true) ∧
    ((∀ c ∈ p.children, c.tagName = "position" → s.metrics.position = some c.text) →
     (∀ c ∈ p.children, c.tagName = "time" → s.metrics.estimatedTimeLeft = some c.text) →
      (onIQ s iq).events = [] ∧ (onIQ (onIQ s iq).state iq).events = []) := by
  rw [onIQ_valid s iq p rest hj hf hn, processPayload_info s iq p ha]
  have hupd : (p.children.foldl processChild (s.metrics, false)).2 =
      infoChanged s.metrics p.children := by
    rw [foldl_processChild_updated]
    simp
  refine ⟨?_, ?_, ?_⟩
  · intro h
    show (p.children.foldl processChild (s.metrics, false)).1 = s.metrics
    exact foldl_processChild_unchanged p.children (s.metrics, false) h
  · show (if (p.children.foldl processChild (s.metrics, false)).2 then
        [Event.metrics (p.children.foldl processChild (s.metrics, false)).1] else []) ≠ [] ↔
      infoChanged s.metrics p.children = true
    rw [hupd]
    cases hch : infoChanged s.metrics p.children <;> simp
  · intro h1 h2
    have hch : infoChanged s.metrics p.children = false :=
      infoChanged_false_of_fields_equal p.children s.metrics h1 h2
    have hzero : (p.children.foldl processChild (s.metrics, false)).2 = false := by
      rw [hupd, hch]
    have hst : (p.children.foldl processChild (s.metrics, false)).1 = s.metrics :=
      foldl_processChild_unchanged p.children (s.metrics, false) hch
    constructor
    · show (if (p.children.foldl processChild (s.metrics, false)).2 then
          [Event.metrics (p.children.foldl processChild (s.metrics, false)).1] else []) = []
      rw [hzero]
      rfl
    · have hs : ({ s with metrics := (p.children.foldl processChild (s.metrics, false)).1 }
          : QueueState) = s := by
        rw [hst]
      show (onIQ ({ s with
          metrics := (p.children.foldl processChild (s.metrics, false)).1 } : QueueState)
          iq).events = []
      rw [hs, onIQ_valid s iq p rest hj hf hn, processPayload_info s iq p ha]
      show (if (p.children.foldl processChild (s.metrics, false)).2 then
          [Event.metrics (p.children.foldl processChild (s.metrics, false)).1] else []) = []
      rw [hzero]
      rfl

/-- C4 witness: a push whose single `position` field equals the stored
value emits zero events, twice in a row. -/
theorem c4_metrics_change_detection_witness :
    (onIQ joinedWithPos5 dupIQsample).events = [] ∧
    (onIQ (onIQ joinedWithPos5 dupIQsample).state dupIQsample).events = [] :=
  (c4_metrics_change_detection joinedWithPos5 dupIQsample infoPayloadSample []
    rfl rfl rfl rfl).2.2 (by decide) (by decide)

/-- C5: join() while already joined and leave() while not joined each
reject immediately with their respective error (the AlreadyJoined and
NotJoined messages of the source) and send no request over the
connection. -/
theorem c5_reject_without_request (s : QueueState) :
    (s.hasJoined = true →
      join s = CallResult.rejectedImmediately "The queue is already joined!" ∧
      requestsSent (join s) = []) ∧
    (s.hasJoined = false →
      leave s = CallResult.rejectedImmediately "There\x27s no queue to leave!" ∧
      requestsSent (leave s) = []) := by
  constructor
  · intro h
    have hj : join s = CallResult.rejectedImmediately "The queue is already joined!" := by
      unfold join
      rw [h]
      rfl
    exact ⟨hj, by rw [hj]; rfl⟩
  · intro h
    have hl : leave s = CallResult.rejectedImmediately "There\x27s no queue to leave!" := by
      unfold leave
      rw [h]
      rfl
    exact ⟨hl, by rw [hl]; rfl⟩

/-- C5 witness at concrete joined and not-joined states. -/
theorem c5_reject_without_request_witness :
    join sampleJoined = CallResult.rejectedImmediately "The queue is already joined!" ∧
    requestsSent (join sampleJoined) = [] ∧
    leave (initialState "jibriqueue@auth.example.com" "room@conference.example.com") =
      CallResult.rejectedImmediately "There\x27s no queue to leave!" ∧
    requestsSent
      (leave (initialState "jibriqueue@auth.example.com" "room@conference.example.com")) = [] :=
  ⟨((c5_reject_without_request sampleJoined).1 rfl).1,
   ((c5_reject_without_request sampleJoined).1 rfl).2,
   ((c5_reject_without_request (initialState _ _)).2 rfl).1,
   ((c5_reject_without_request (initialState _ _)).2 rfl).2⟩

/-- C6: a validated inbound message processed while joined whose action is
neither `info` nor `token` produces exactly one error-type acknowledgment
carrying a `service-unavailable` condition in the standard stanza-error
namespace, and zero application events. -/
theorem c6_unrecognized_action_error_ack (s : QueueState) (iq : IQ) (p : Payload)
    (rest : List Payload) (hj : s.hasJoined = true)
    (hf : iq.fromJid = s.jibriQueueJID) (hn : iq.jibriQueueNodes = p :: rest)
    (hi : p.action ≠ some "info") (ht : p.action ≠ some "token") :
    (onIQ s iq).acks =
      [{ type := "error", toJid := iq.fromJid, id := iq.id,
         error := some { errorType := "cancel", condition := "service-unavailable",
                         conditionXmlns := "urn:ietf:params:xml:ns:xmpp-stanzas" } }] ∧
    (onIQ s iq).events = [] := by
  rw [onIQ_valid s iq p rest hj hf hn, processPayload_default s iq p hi ht]
  exact ⟨rfl, rfl⟩

/-- C6 witness: a push with action `stop`. -/
theorem c6_unrecognized_action_error_ack_witness :
    (onIQ sampleJoined unknownIQsample).acks =
      [{ type := "error", toJid := "jibriqueue@auth.example.com", id := "iq-3",
         error := some { errorType := "cancel", condition := "service-unavailable",
                         conditionXmlns := "urn:ietf:params:xml:ns:xmpp-stanzas" } }] ∧
    (onIQ sampleJoined unknownIQsample).events = [] :=
  c6_unrecognized_action_error_ack sampleJoined unknownIQsample
    { action := some "stop", value := none, children := [] } []
    rfl rfl rfl (by decide) (by decide)

/-- C7: the only event that turns the membership flag from `not-joined` to
`joined` is the successful join acknowledgment. -/
theorem c7_only_join_success_sets_joined (m : Machine) (e : Step)
    (h0 : m.q.hasJoined = false) (h1 : (step m e).q.hasJoined = true) :
    e = Step.joinAckSuccess := by
  by_contra hne
  rw [step_preserves_hasJoined m e hne, h0] at h1
  exact Bool.false_ne_true h1

/-- C7 witness: a not-joined machine with an outstanding join request turns
joined exactly on the success acknowledgment step. -/
theorem c7_only_join_success_sets_joined_witness :
    Step.joinAckSuccess = Step.joinAckSuccess :=
  c7_only_join_success_sets_joined
    { q := initialState "jibriqueue@auth.example.com" "room@conference.example.com",
      handlerActive := true, joinOutstanding := true, leaveOutstanding := false,
      joinPromise := PromiseState.pending, leavePromise := PromiseState.pending }
    Step.joinAckSuccess rfl rfl

/-- C8: a `token` push processed while joined emits one `token` event
carrying the decoded `value` attribute and leaves the state unchanged, so
an identical consecutive push emits the same event again — no
deduplication. -/
theorem c8_token_no_dedup (s : QueueState) (iq : IQ) (p : Payload)
    (rest : List Payload) (hj : s.hasJoined = true)
    (hf : iq.fromJid = s.jibriQueueJID) (hn : iq.jibriQueueNodes = p :: rest)
    (ha : p.action = some "token") :
    (onIQ s iq).events = [Event.token p.value] ∧
    (onIQ s iq).state = s ∧
    (onIQ (onIQ s iq).state iq).events = [Event.token p.value] := by
  rw [onIQ_valid s iq p rest hj hf hn, processPayload_token s iq p ha]
  refine ⟨rfl, rfl, ?_⟩
  show (onIQ s iq).events = [Event.token p.value]
  rw [onIQ_valid s iq p rest hj hf hn, processPayload_token s iq p ha]

/-- C8 witness: `value=abc` twice in a row yields the event twice. -/
theorem c8_token_no_dedup_witness :
    (onIQ sampleJoined tokenIQsample).events = [Event.token (some "abc")] ∧
    (onIQ (onIQ sampleJoined tokenIQsample).state tokenIQsample).events =
      [Event.token (some "abc")] :=
  ⟨(c8_token_no_dedup sampleJoined tokenIQsample
      { action := some "token", value := some "abc", children := [] } []
      rfl rfl rfl rfl).1,
   (c8_token_no_dedup sampleJoined tokenIQsample
      { action := some "token", value := some "abc", children := [] } []
      rfl rfl rfl rfl).2.2⟩

/-- C9: for an `info` push processed while joined, whenever the payload
contains at least one `position` (resp. `time`) child, the stored metric
afterwards is the decoded text of the last such child in document order —
left-to-right last-wins. -/
theorem c9_last_field_wins (s : QueueState) (iq : IQ) (p : Payload)
    (rest : List Payload) (hj : s.hasJoined = true)
    (hf : iq.fromJid = s.jibriQueueJID) (hn : iq.jibriQueueNodes = p :: rest)
    (ha : p.action = some "info") :
    ∀ t : String,
      (lastText "position" p.children = some t →
        (onIQ s iq).state.metrics.position = some t) ∧
      (lastText "time" p.children = some t →
        (onIQ s iq).state.metrics.estimatedTimeLeft = some t) := by
  rw [onIQ_valid s iq p rest hj hf hn, processPayload_info s iq p ha]
  intro t
  constructor
  · intro hl
    show (p.children.foldl processChild (s.metrics, false)).1.position = some t
    rw [foldl_processChild_position, hl]
    rfl
  · intro hl
    show (p.children.foldl processChild (s.metrics, false)).1.estimatedTimeLeft = some t
    rw [foldl_processChild_time, hl]
    rfl

/-- C9 witness: position children 3 then 7 and time children 40 then 25
leave 7 and 25 stored. -/
theorem c9_last_field_wins_witness :
    (onIQ sampleJoined multiIQsample).state.metrics.position = some "7" ∧
    (onIQ sampleJoined multiIQsample).state.metrics.estimatedTimeLeft = some "25" :=
  ⟨(c9_last_field_wins sampleJoined multiIQsample multiPayloadSample []
      rfl rfl rfl rfl "7").1 rfl,
   (c9_last_field_wins sampleJoined multiIQsample multiPayloadSample []
      rfl rfl rfl rfl "25").2 rfl⟩

/-- C10: an `info` push processed while joined all of whose children carry
tags other than `position` and `time` leaves the whole instance state
unchanged, emits no event, and still sends one normal result-type
acknowledgment while reporting the message handled. -/
theorem c10_info_unrelated_children_frame (s : QueueState) (iq : IQ) (p : Payload)
    (rest : List Payload) (hj : s.hasJoined = true)
    (hf : iq.fromJid = s.jibriQueueJID) (hn : iq.jibriQueueNodes = p :: rest)
    (ha : p.action = some "info")
    (hc : ∀ c ∈ p.children, c.tagName ≠ "position" ∧ c.tagName ≠ "time") :
    (onIQ s iq).state = s ∧ (onIQ s iq).events = [] ∧
    (onIQ s iq).acks = [{ type := "result", toJid := iq.fromJid, id := iq.id,
                          error := none }] ∧
    (onIQ s iq).handled = some true := by
  rw [onIQ_valid s iq p rest hj hf hn, processPayload_info s iq p ha]
  have hfold : p.children.foldl processChild (s.metrics, false) = (s.metrics, false) :=
    foldl_processChild_skip p.children (s.metrics, false) hc
  refine ⟨?_, ?_, rfl, rfl⟩
  · show ({ s with metrics := (p.children.foldl processChild (s.metrics, false)).1 }
        : QueueState) = s
    rw [hfold]
  · show (if (p.children.foldl processChild (s.metrics, false)).2 then
        [Event.metrics (p.children.foldl processChild (s.metrics, false)).1] else [])
        = ([] : List Event)
    rw [hfold]
    rfl

/-- C10 witness: a `note` child changes nothing and is still acknowledged
normally. -/
theorem c10_info_unrelated_children_frame_witness :
    (onIQ sampleJoined otherIQsample).state = sampleJoined ∧
    (onIQ sampleJoined otherIQsample).events = [] ∧
    (onIQ sampleJoined otherIQsample).acks =
      [{ type := "result", toJid := "jibriqueue@auth.example.com", id := "iq-7",
         error := none }] ∧
    (onIQ sampleJoined otherIQsample).handled = some true :=
  c10_info_unrelated_children_frame sampleJoined otherIQsample otherPayloadSample []
    rfl rfl rfl rfl (by decide)

end JibriQueue
